import Mathlib

/-!
# faas-netes handlers: update (reconcile) and reader (projection)

A shallow embedding of `src/handlers/update.go` and `src/handlers/reader.go`.

* Go `map[string]string` values are association lists with unique keys (`GoMap`);
  a nil map and an empty map are not distinguished.
* The Kubernetes client is an abstract state machine over a store state `σ`:
  every call returns its answer together with the next store state, and every
  call made by the handlers is appended to `World.calls`.
* `http.ResponseWriter` is the list of the calls made on it (`World.response`).
* A Go run-time panic (index out of range) is the explicit outcome `Outcome.panic`.
* Functions of the repository that the two files call but do not define are
  parameters (`FunctionFactory`, `Package`).
-/

namespace FaasNetes

/-- Go `map[string]string`: key/value entries with pairwise distinct keys. -/
abbrev GoMap := AList (fun _ : String => String)

/-- Go `error` value: its `Error()` text and whether `errors.IsNotFound` of
`k8s.io/apimachinery/pkg/api/errors` holds of it. -/
structure GoError where
  msg : String
  notFound : Bool
deriving DecidableEq

/-- Result of running Go code that may panic at run time. -/
inductive Outcome (α : Type) where
  | panic (reason : String)
  | ret (value : α)
deriving DecidableEq

/-- Go conversion `uint64(x)` of a signed integer (two's complement wrap-around). -/
def uint64 (x : Int) : Nat := (x % 2 ^ 64).toNat

def StatusOK : Nat := 200
def StatusAccepted : Nat := 202
def StatusBadRequest : Nat := 400
def StatusUnauthorized : Nat := 401
def StatusNotFound : Nat := 404
def StatusInternalServerError : Nat := 500

/-! ## Kubernetes objects (the fields the handlers read or write) -/

structure Probe where
  Path : String
  Port : Nat
  InitialDelaySeconds : Int
  TimeoutSeconds : Int
  PeriodSeconds : Int
deriving DecidableEq

structure ResourceRequirements where
  Limits : GoMap
  Requests : GoMap
deriving DecidableEq

structure EnvVar where
  Name : String
  Value : String
deriving DecidableEq

structure SecurityContext where
  ReadOnlyRootFilesystem : Option Bool
  RunAsUser : Option Int
deriving DecidableEq

structure Container where
  Name : String
  Image : String
  Env : List EnvVar
  Resources : ResourceRequirements
  LivenessProbe : Option Probe
  ReadinessProbe : Option Probe
  SecurityContext : Option SecurityContext
  VolumeMounts : List String
deriving DecidableEq

structure PodSpec where
  Containers : List Container
  NodeSelector : GoMap
  ServiceAccountName : String
  Volumes : List String
  ImagePullSecrets : List String
deriving DecidableEq

structure PodTemplateSpec where
  Labels : GoMap
  Annotations : GoMap
  Spec : PodSpec
deriving DecidableEq

structure DeploymentSpec where
  Replicas : Option Int
  Template : PodTemplateSpec
deriving DecidableEq

structure DeploymentStatus where
  AvailableReplicas : Int
deriving DecidableEq

/-- The `appsv1.Deployment` workload object. -/
structure Deployment where
  Name : String
  Namespace : String
  Labels : GoMap
  Annotations : GoMap
  Spec : DeploymentSpec
  Status : DeploymentStatus
deriving DecidableEq

/-- The `corev1.Service` endpoint object. -/
structure Service where
  Name : String
  Namespace : String
  Annotations : GoMap
  Ports : List Nat
deriving DecidableEq

/-- The `apiv1.Secret` objects resolved by `getSecrets` (its Go field `Type` is `SecretType` here). -/
structure Secret where
  Name : String
  SecretType : String
deriving DecidableEq

/-! ## faas-provider types -/

/-- The `types.FunctionDeployment` request document. -/
structure FunctionDeployment where
  Service : String
  Image : String
  EnvVars : GoMap
  Constraints : List String
  Secrets : List String
  Labels : Option GoMap
  Annotations : Option GoMap
  Limits : Option (String × String)
  Requests : Option (String × String)
  ReadOnlyRootFilesystem : Bool
deriving DecidableEq

/-- The `types.FunctionStatus` record; `InvocationCount` only ever holds the literal `0`. -/
structure FunctionStatus where
  Name : String
  Image : String
  InvocationCount : Nat
  Replicas : Nat
  AvailableReplicas : Nat
  Labels : Option GoMap
  Annotations : Option GoMap
  Namespace : String
deriving DecidableEq

structure FunctionProbes where
  Liveness : Option Probe
  Readiness : Option Probe
deriving DecidableEq

/-! ## The store client, the response writer and the world -/

/-- The calls of the typed Kubernetes clientset that the two files make. Each takes the
store state and returns the answer with the next store state. `Update` returns the
error only (the handlers discard the returned object). -/
structure Clientset (σ : Type) where
  DeploymentsGet : σ → String → String → Except GoError Deployment × σ
  DeploymentsUpdate : σ → String → Deployment → Option GoError × σ
  DeploymentsList : σ → String → String → Except GoError (List Deployment) × σ
  ServicesGet : σ → String → String → Except GoError Service × σ
  ServicesUpdate : σ → String → Service → Option GoError × σ

/-- One store call, as recorded in the trace. -/
inductive Call where
  | deploymentsGet (ns name : String)
  | deploymentsUpdate (ns : String) (deployment : Deployment)
  | deploymentsList (ns labelSelector : String)
  | servicesGet (ns name : String)
  | servicesUpdate (ns : String) (service : Service)
deriving DecidableEq

/-- One call on the `http.ResponseWriter`. -/
inductive WriterOp where
  | setHeader (key value : String)
  | writeHeader (status : Nat)
  | write (body : String)
deriving DecidableEq

/-- Everything a handler can observe or change: the store, the trace of store calls made
so far (oldest first) and the calls made on the response writer (oldest first). -/
structure World (σ : Type) where
  store : σ
  calls : List Call
  response : List WriterOp
deriving DecidableEq

namespace World

variable {σ : Type}

def DeploymentsGet (client : Clientset σ) (ns name : String) (w : World σ) :
    Except GoError Deployment × World σ :=
  ((client.DeploymentsGet w.store ns name).1,
   { w with store := (client.DeploymentsGet w.store ns name).2,
            calls := w.calls ++ [Call.deploymentsGet ns name] })

def DeploymentsUpdate (client : Clientset σ) (ns : String) (deployment : Deployment)
    (w : World σ) : Option GoError × World σ :=
  ((client.DeploymentsUpdate w.store ns deployment).1,
   { w with store := (client.DeploymentsUpdate w.store ns deployment).2,
            calls := w.calls ++ [Call.deploymentsUpdate ns deployment] })

def DeploymentsList (client : Clientset σ) (ns labelSelector : String) (w : World σ) :
    Except GoError (List Deployment) × World σ :=
  ((client.DeploymentsList w.store ns labelSelector).1,
   { w with store := (client.DeploymentsList w.store ns labelSelector).2,
            calls := w.calls ++ [Call.deploymentsList ns labelSelector] })

def ServicesGet (client : Clientset σ) (ns name : String) (w : World σ) :
    Except GoError Service × World σ :=
  ((client.ServicesGet w.store ns name).1,
   { w with store := (client.ServicesGet w.store ns name).2,
            calls := w.calls ++ [Call.servicesGet ns name] })

def ServicesUpdate (client : Clientset σ) (ns : String) (service : Service)
    (w : World σ) : Option GoError × World σ :=
  ((client.ServicesUpdate w.store ns service).1,
   { w with store := (client.ServicesUpdate w.store ns service).2,
            calls := w.calls ++ [Call.servicesUpdate ns service] })

/-- The call `w.Header().Set(key, value)`. -/
def SetHeader (key value : String) (w : World σ) : World σ :=
  { w with response := w.response ++ [WriterOp.setHeader key value] }

/-- The call `w.WriteHeader(status)`. -/
def WriteHeader (status : Nat) (w : World σ) : World σ :=
  { w with response := w.response ++ [WriterOp.writeHeader status] }

/-- The call `w.Write(body)`. -/
def Write (body : String) (w : World σ) : World σ :=
  { w with response := w.response ++ [WriterOp.write body] }

/-- The library function `http.Error(w, error, code)` of `net/http`: it sets the two
plain-text headers, writes the status code and prints the message with a newline. -/
def httpError (error : String) (code : Nat) (w : World σ) : World σ :=
  Write (error ++ "\n")
    (WriteHeader code
      (SetHeader "X-Content-Type-Options" "nosniff"
        (SetHeader "Content-Type" "text/plain; charset=utf-8" w)))

end World

/-- The incoming `*http.Request`: the value of `r.URL.Query().Get("namespace")` and the
bytes of the body. -/
structure HttpRequest where
  namespaceQuery : String
  Body : String
deriving DecidableEq

/-! ## reader.go -/

/-- `readFunction` (reader.go 97-116). `Containers[0]` is indexed without a length check,
so an empty container list is a run-time panic. The result is a pointer that is never
nil (`some`). -/
def readFunction (item : Deployment) : Outcome (Option FunctionStatus) :=
  let replicas : Nat :=
    match item.Spec.Replicas with
    | some r => uint64 r
    | none => 0
  let labels := item.Spec.Template.Labels
  match item.Spec.Template.Spec.Containers with
  | [] => Outcome.panic "runtime error: index out of range [0] with length 0"
  | c :: _ =>
    Outcome.ret (some
      { Name := item.Name
        Replicas := replicas
        Image := c.Image
        AvailableReplicas := uint64 item.Status.AvailableReplicas
        InvocationCount := 0
        Labels := some labels
        Annotations := some item.Spec.Template.Annotations
        Namespace := item.Namespace })

/-- The loop of `getServiceList` (reader.go 63-68) over the remaining items, `functions`
being the slice built so far. -/
def getServiceListLoop : List Deployment → List FunctionStatus → Outcome (List FunctionStatus)
  | [], functions => Outcome.ret functions
  | item :: rest, functions =>
    match readFunction item with
    | Outcome.panic reason => Outcome.panic reason
    | Outcome.ret (some function) => getServiceListLoop rest (functions ++ [function])
    | Outcome.ret none => getServiceListLoop rest functions

/-- `getServiceList` (reader.go 50-70); the Go result pair is `(functions, err)`, a nil
slice being `none`. -/
def getServiceList {σ : Type} (functionNamespace : String) (clientset : Clientset σ)
    (w : World σ) : Outcome (Option (List FunctionStatus) × Option GoError) × World σ :=
  let functions : List FunctionStatus := []
  match World.DeploymentsList clientset functionNamespace "faas_function" w with
  | (Except.error err, w) => (Outcome.ret (none, some err), w)
  | (Except.ok res, w) =>
    match getServiceListLoop res functions with
    | Outcome.panic reason => (Outcome.panic reason, w)
    | Outcome.ret functions => (Outcome.ret (some functions, none), w)

/-- `getService` (reader.go 73-95). The typed client never returns a nil object with a
nil error, so `item != nil` holds whenever `err == nil`. -/
def getService {σ : Type} (functionNamespace : String) (functionName : String)
    (clientset : Clientset σ) (w : World σ) :
    Outcome (Option FunctionStatus × Option GoError) × World σ :=
  match World.DeploymentsGet clientset functionNamespace functionName w with
  | (Except.error err, w) =>
    if err.notFound then (Outcome.ret (none, none), w)
    else (Outcome.ret (none, some err), w)
  | (Except.ok item, w) =>
    match readFunction item with
    | Outcome.panic reason => (Outcome.panic reason, w)
    | Outcome.ret (some function) => (Outcome.ret (some function, none), w)
    | Outcome.ret none =>
      (Outcome.ret (none, some ⟨"function: " ++ functionName ++ " not found", false⟩), w)

/-- The handler returned by `MakeFunctionReader` (reader.go 20-48); `marshal` is
`json.Marshal` on the status slice. -/
def MakeFunctionReader {σ : Type} (defaultNamespace : String) (clientset : Clientset σ)
    (marshal : Option (List FunctionStatus) → String) (r : HttpRequest) (w : World σ) :
    Outcome Unit × World σ :=
  let ns := r.namespaceQuery
  let lookupNamespace := if ns.length > 0 then ns else defaultNamespace
  let w := if lookupNamespace = "kube-system" then
      World.httpError "unable to list within the kube-system namespace" StatusUnauthorized w
    else w
  match getServiceList lookupNamespace clientset w with
  | (Outcome.panic reason, w) => (Outcome.panic reason, w)
  | (Outcome.ret (_, some err), w) =>
    (Outcome.ret (), World.Write err.msg (World.WriteHeader StatusInternalServerError w))
  | (Outcome.ret (functions, none), w) =>
    let functionBytes := marshal functions
    (Outcome.ret (),
      World.Write functionBytes
        (World.WriteHeader StatusOK (World.SetHeader "Content-Type" "application/json" w)))

/-! ## update.go -/

/-- The `k8s.FunctionFactory` value: its client and the three methods the update handler
calls. The two `Configure...` methods receive the deployment pointer and mutate it; here
they return the mutated object. -/
structure FunctionFactory (σ : Type) where
  Client : Clientset σ
  ConfigureReadOnlyRootFilesystem : FunctionDeployment → Deployment → Deployment
  ConfigureContainerUserID : Deployment → Deployment
  MakeProbes : FunctionDeployment → Except GoError FunctionProbes

/-- Functions of package `handlers` (and the standard library) that update.go calls and
that are defined outside the two source files. `UpdateSecrets` mutates the deployment it
is given and returns an error or nil; `getSecrets` reads the store. -/
structure Package (σ : Type) where
  unmarshal : String → Option FunctionDeployment
  buildAnnotations : FunctionDeployment → GoMap
  isNotFound : GoError → Bool
  buildEnvVars : FunctionDeployment → List EnvVar
  createSelector : List String → GoMap
  getMinReplicaCount : GoMap → Option Int
  createResources : FunctionDeployment → Except GoError ResourceRequirements
  getSecrets : σ → String → List String → Except GoError (List (String × Secret)) × σ
  UpdateSecrets : FunctionDeployment → Deployment → List (String × Secret) →
    Option GoError × Deployment

/-- The assignment `deployment.Spec.Template.Spec.Containers[0] = f(Containers[0])`: an
index expression, so it panics on an empty container list. -/
def assignContainer0 (f : Container → Container) (deployment : Deployment) :
    Outcome Deployment :=
  match deployment.Spec.Template.Spec.Containers with
  | [] => Outcome.panic "runtime error: index out of range [0] with length 0"
  | c :: cs => Outcome.ret { deployment with Spec.Template.Spec.Containers := f c :: cs }

/-- The map literal of update.go 102-105; `nanosecond` is `time.Now().Nanosecond()` and
`fmt.Sprintf("%d", _)` prints it in decimal. -/
def ownedLabels (request : FunctionDeployment) (nanosecond : Nat) : GoMap :=
  AList.insert "uid" (toString nanosecond)
    (AList.insert "faas_function" request.Service (∅ : GoMap))

/-- The loop of update.go 112-114: `labels[k] = v` for every entry of the caller's map. -/
def copyLabels (requestLabels : GoMap) (labels : GoMap) : GoMap :=
  requestLabels.foldl (fun labels k v => AList.insert k v labels) labels

/-- The label map built by update.go 102-115. -/
def buildLabels (request : FunctionDeployment) (nanosecond : Nat) : GoMap :=
  match request.Labels with
  | none => ownedLabels request nanosecond
  | some requestLabels => copyLabels requestLabels (ownedLabels request nanosecond)

/-- The replica count after update.go 107-110. -/
def buildReplicas {σ : Type} (pkg : Package σ) (request : FunctionDeployment)
    (replicas : Option Int) : Option Int :=
  match request.Labels with
  | none => replicas
  | some requestLabels =>
    match pkg.getMinReplicaCount requestLabels with
    | some min => some min
    | none => replicas

/-- The service account chosen by update.go 131-138. -/
def buildServiceAccount (request : FunctionDeployment) : String :=
  match request.Annotations with
  | none => ""
  | some annotations =>
    match annotations.lookup "com.openfaas.serviceaccount" with
    | some val => if val.length > 0 then val else ""
    | none => ""

/-- Lines 88-122 of `updateDeploymentSpec`, entered with a non-empty container list: image,
environment, security configuration, node selector, replicas, labels, annotations. -/
def applyRequest {σ : Type} (factory : FunctionFactory σ) (pkg : Package σ)
    (request : FunctionDeployment) (annotations : GoMap) (nanosecond : Nat)
    (deployment : Deployment) : Outcome Deployment :=
  match assignContainer0 (fun c => { c with Image := request.Image }) deployment with
  | Outcome.panic reason => Outcome.panic reason
  | Outcome.ret deployment =>
  match assignContainer0 (fun c => { c with Env := pkg.buildEnvVars request }) deployment with
  | Outcome.panic reason => Outcome.panic reason
  | Outcome.ret deployment =>
  let deployment := factory.ConfigureReadOnlyRootFilesystem request deployment
  let deployment := factory.ConfigureContainerUserID deployment
  let deployment : Deployment :=
    { deployment with Spec.Template.Spec.NodeSelector := pkg.createSelector request.Constraints }
  let deployment : Deployment :=
    { deployment with Spec.Replicas := buildReplicas pkg request deployment.Spec.Replicas }
  let deployment : Deployment :=
    { deployment with Spec.Template.Labels := buildLabels request nanosecond }
  let deployment : Deployment := { deployment with Annotations := annotations }
  let deployment : Deployment := { deployment with Spec.Template.Annotations := annotations }
  Outcome.ret deployment

/-- The body of `updateDeploymentSpec` between the fetch and the commit (update.go 87-160).
The result is the deployment to commit, or the early `return err, status`. -/
def mutateDeployment {σ : Type} (functionNamespace : String) (factory : FunctionFactory σ)
    (pkg : Package σ) (request : FunctionDeployment) (annotations : GoMap) (nanosecond : Nat)
    (deployment : Deployment) (w : World σ) :
    Outcome (Except (GoError × Nat) Deployment) × World σ :=
  if deployment.Spec.Template.Spec.Containers.length > 0 then
    match applyRequest factory pkg request annotations nanosecond deployment with
    | Outcome.panic reason => (Outcome.panic reason, w)
    | Outcome.ret deployment =>
    match pkg.createResources request with
    | Except.error resourceErr =>
      (Outcome.ret (Except.error (resourceErr, StatusBadRequest)), w)
    | Except.ok resources =>
    match assignContainer0 (fun c => { c with Resources := resources }) deployment with
    | Outcome.panic reason => (Outcome.panic reason, w)
    | Outcome.ret deployment =>
    let serviceAccount := buildServiceAccount request
    let deployment : Deployment :=
      { deployment with Spec.Template.Spec.ServiceAccountName := serviceAccount }
    let secrets := pkg.getSecrets w.store functionNamespace request.Secrets
    let w : World σ := { w with store := secrets.2 }
    match secrets.1 with
    | Except.error err => (Outcome.ret (Except.error (err, StatusBadRequest)), w)
    | Except.ok existingSecrets =>
    match pkg.UpdateSecrets request deployment existingSecrets with
    | (some err, _) => (Outcome.ret (Except.error (err, StatusBadRequest)), w)
    | (none, deployment) =>
    match factory.MakeProbes request with
    | Except.error err => (Outcome.ret (Except.error (err, StatusBadRequest)), w)
    | Except.ok probes =>
    match assignContainer0 (fun c => { c with LivenessProbe := probes.Liveness }) deployment with
    | Outcome.panic reason => (Outcome.panic reason, w)
    | Outcome.ret deployment =>
    match assignContainer0 (fun c => { c with ReadinessProbe := probes.Readiness }) deployment with
    | Outcome.panic reason => (Outcome.panic reason, w)
    | Outcome.ret deployment => (Outcome.ret (Except.ok deployment), w)
  else (Outcome.ret (Except.ok deployment), w)

/-- `updateDeploymentSpec` (update.go 71-170); the Go result pair is `(err, httpStatus)`. -/
def updateDeploymentSpec {σ : Type} (functionNamespace : String) (factory : FunctionFactory σ)
    (pkg : Package σ) (request : FunctionDeployment) (annotations : GoMap) (nanosecond : Nat)
    (w : World σ) : Outcome (Option GoError × Nat) × World σ :=
  match World.DeploymentsGet factory.Client functionNamespace request.Service w with
  | (Except.error findDeployErr, w) => (Outcome.ret (some findDeployErr, StatusNotFound), w)
  | (Except.ok deployment, w) =>
    match mutateDeployment functionNamespace factory pkg request annotations nanosecond
        deployment w with
    | (Outcome.panic reason, w) => (Outcome.panic reason, w)
    | (Outcome.ret (Except.error (err, httpStatus)), w) => (Outcome.ret (some err, httpStatus), w)
    | (Outcome.ret (Except.ok deployment), w) =>
      match World.DeploymentsUpdate factory.Client functionNamespace deployment w with
      | (some updateErr, w) => (Outcome.ret (some updateErr, StatusInternalServerError), w)
      | (none, w) => (Outcome.ret (none, StatusAccepted), w)

/-- `updateService` (update.go 172-198). -/
def updateService {σ : Type} (functionNamespace : String) (factory : FunctionFactory σ)
    (request : FunctionDeployment) (annotations : GoMap) (w : World σ) :
    (Option GoError × Nat) × World σ :=
  match World.ServicesGet factory.Client functionNamespace request.Service w with
  | (Except.error findServiceErr, w) => ((some findServiceErr, StatusNotFound), w)
  | (Except.ok service, w) =>
    let service : Service := { service with Annotations := annotations }
    match World.ServicesUpdate factory.Client functionNamespace service w with
    | (some updateErr, w) => ((some updateErr, StatusInternalServerError), w)
    | (none, w) => ((none, StatusAccepted), w)

/-- Lines 57-67 of the handler returned by `MakeUpdateHandler`: the endpoint update and the
final `202`. -/
def updateHandlerService {σ : Type} (lookupNamespace : String) (factory : FunctionFactory σ)
    (request : FunctionDeployment) (annotations : GoMap) (w : World σ) : World σ :=
  match updateService lookupNamespace factory request annotations w with
  | ((some err, status), w) => World.Write err.msg (World.WriteHeader status w)
  | ((none, _), w) => World.WriteHeader StatusAccepted w

/-- The handler returned by `MakeUpdateHandler` (update.go 21-69). Log lines are not
modelled. -/
def MakeUpdateHandler {σ : Type} (defaultNamespace : String) (factory : FunctionFactory σ)
    (pkg : Package σ) (nanosecond : Nat) (r : HttpRequest) (w : World σ) :
    Outcome Unit × World σ :=
  let ns := r.namespaceQuery
  let lookupNamespace := if ns.length > 0 then ns else defaultNamespace
  let w := if lookupNamespace = "kube-system" then
      World.httpError "unable to list within the kube-system namespace" StatusUnauthorized w
    else w
  match pkg.unmarshal r.Body with
  | none => (Outcome.ret (), World.WriteHeader StatusBadRequest w)
  | some request =>
    let annotations := pkg.buildAnnotations request
    match updateDeploymentSpec lookupNamespace factory pkg request annotations nanosecond w with
    | (Outcome.panic reason, w) => (Outcome.panic reason, w)
    | (Outcome.ret (some err, status), w) =>
      if !pkg.isNotFound err then (Outcome.ret (), w)
      else
        let w := World.Write err.msg (World.WriteHeader status w)
        (Outcome.ret (), updateHandlerService lookupNamespace factory request annotations w)
    | (Outcome.ret (none, _), w) =>
      (Outcome.ret (), updateHandlerService lookupNamespace factory request annotations w)

/-! ## A concrete in-memory store and concrete collaborators

Used to run the handlers on explicit inputs. -/

/-- An in-memory store: the workloads and the endpoints it holds. -/
structure MemStore where
  deployments : List Deployment
  services : List Service
deriving DecidableEq

/-- The not-found error of the API server for a named object. -/
def notFoundError (resource name : String) : GoError :=
  ⟨resource ++ " \"" ++ name ++ "\" not found", true⟩

/-- An in-memory clientset: `Get` finds the object by namespace and name, `Update`
replaces the stored object of the same namespace and name, `List` returns the workloads of
the namespace that carry the selector key among their labels. -/
def memClient : Clientset MemStore where
  DeploymentsGet st ns name :=
    match st.deployments.find? (fun d => d.Namespace = ns ∧ d.Name = name) with
    | some d => (Except.ok d, st)
    | none => (Except.error (notFoundError "deployments.apps" name), st)
  DeploymentsUpdate st ns deployment :=
    if st.deployments.any (fun d => d.Namespace = ns ∧ d.Name = deployment.Name) then
      (none, { st with deployments := st.deployments.map (fun d =>
        if d.Namespace = ns ∧ d.Name = deployment.Name then deployment else d) })
    else (some (notFoundError "deployments.apps" deployment.Name), st)
  DeploymentsList st ns labelSelector :=
    (Except.ok (st.deployments.filter (fun d =>
      d.Namespace = ns ∧ (d.Labels.lookup labelSelector).isSome)), st)
  ServicesGet st ns name :=
    match st.services.find? (fun s => s.Namespace = ns ∧ s.Name = name) with
    | some s => (Except.ok s, st)
    | none => (Except.error (notFoundError "services" name), st)
  ServicesUpdate st ns service :=
    if st.services.any (fun s => s.Namespace = ns ∧ s.Name = service.Name) then
      (none, { st with services := st.services.map (fun s =>
        if s.Namespace = ns ∧ s.Name = service.Name then service else s) })
    else (some (notFoundError "services" service.Name), st)

/-- A factory over the in-memory client: the security configuration sets the security
context of the first container, the probes are fixed. -/
def memFactory : FunctionFactory MemStore where
  Client := memClient
  ConfigureReadOnlyRootFilesystem request deployment :=
    match deployment.Spec.Template.Spec.Containers with
    | [] => deployment
    | c :: cs =>
      { deployment with Spec.Template.Spec.Containers :=
          { c with SecurityContext := some ⟨some request.ReadOnlyRootFilesystem, none⟩ } :: cs }
  ConfigureContainerUserID deployment :=
    match deployment.Spec.Template.Spec.Containers with
    | [] => deployment
    | c :: cs =>
      { deployment with Spec.Template.Spec.Containers :=
          { c with SecurityContext := some ⟨(c.SecurityContext.bind
              (fun sc => sc.ReadOnlyRootFilesystem)), some 12000⟩ } :: cs }
  MakeProbes _ := Except.ok ⟨some ⟨"/_/health", 8080, 2, 1, 2⟩, some ⟨"/_/health", 8080, 2, 1, 2⟩⟩

/-- Concrete package functions: the decoder answers `decoded`, resource creation answers
`resources`, the minimum replica count is `minReplicas` when the caller's labels carry the
key `com.openfaas.scale.min`, and secrets are mounted as volumes. -/
def memPackage (decoded : Option FunctionDeployment)
    (resources : Except GoError ResourceRequirements) (minReplicas : Option Int) :
    Package MemStore where
  unmarshal _ := decoded
  buildAnnotations request :=
    match request.Annotations with
    | some annotations => AList.insert "prometheus.io.scrape" "false" annotations
    | none => AList.insert "prometheus.io.scrape" "false" (∅ : GoMap)
  isNotFound err := err.notFound
  buildEnvVars request := request.EnvVars.entries.map (fun e => ⟨e.1, e.2⟩)
  createSelector _ := (∅ : GoMap)
  getMinReplicaCount labels :=
    if (labels.lookup "com.openfaas.scale.min").isSome then minReplicas else none
  createResources _ := resources
  getSecrets st _ names := (Except.ok (names.map (fun n => (n, ⟨n, "Opaque"⟩))), st)
  UpdateSecrets request deployment _ :=
    (none, { deployment with Spec.Template.Spec.Volumes := request.Secrets })

def emptyResources : ResourceRequirements := ⟨∅, ∅⟩

def echoContainer : Container :=
  { Name := "echo", Image := "echo:0.9", Env := [], Resources := emptyResources,
    LivenessProbe := none, ReadinessProbe := none, SecurityContext := none,
    VolumeMounts := [] }

def oldAnnotations : GoMap := AList.insert "team" "blue" (∅ : GoMap)

/-- A stored workload named `name` in namespace `openfaas-fn` with the given containers and
replica count, carrying earlier annotations. -/
def echoDeployment (name : String) (containers : List Container) (replicas : Option Int) :
    Deployment :=
  { Name := name, Namespace := "openfaas-fn",
    Labels := AList.insert "faas_function" name (∅ : GoMap),
    Annotations := oldAnnotations,
    Spec := { Replicas := replicas,
              Template := { Labels := AList.insert "faas_function" name (∅ : GoMap),
                            Annotations := oldAnnotations,
                            Spec := { Containers := containers, NodeSelector := ∅,
                                      ServiceAccountName := "", Volumes := [],
                                      ImagePullSecrets := [] } } },
    Status := { AvailableReplicas := 1 } }

def echoService : Service :=
  { Name := "echo", Namespace := "openfaas-fn", Annotations := oldAnnotations, Ports := [8080] }

/-- The request to update function `echo` to image `echo:1.0` with the given labels and
annotations. -/
def echoRequest (labels annotations : Option GoMap) : FunctionDeployment :=
  { Service := "echo", Image := "echo:1.0", EnvVars := ∅, Constraints := [], Secrets := [],
    Labels := labels, Annotations := annotations, Limits := none, Requests := none,
    ReadOnlyRootFilesystem := false }

/-- A world over the in-memory store in which nothing has been called or written yet. -/
def freshWorld (deployments : List Deployment) (services : List Service) : World MemStore :=
  { store := ⟨deployments, services⟩, calls := [], response := [] }

/-- A stand-in for `json.Marshal` on the status slice: the names, comma separated. -/
def namesMarshal : Option (List FunctionStatus) → String
  | none => "null"
  | some functions => String.intercalate "," (functions.map (fun f => f.Name))

/-! ## Frame conditions on the collaborators that mutate the workload -/

/-- The fields of a workload that the reconcile sets itself or that the projection reports:
name, namespace, workload annotations, replica count, pod-template labels and annotations,
and the container images in order. -/
structure ReconciledFields where
  Name : String
  Namespace : String
  Annotations : GoMap
  Replicas : Option Int
  TemplateLabels : GoMap
  TemplateAnnotations : GoMap
  Images : List String
deriving DecidableEq

def reconciledFields (d : Deployment) : ReconciledFields :=
  { Name := d.Name, Namespace := d.Namespace, Annotations := d.Annotations,
    Replicas := d.Spec.Replicas, TemplateLabels := d.Spec.Template.Labels,
    TemplateAnnotations := d.Spec.Template.Annotations,
    Images := d.Spec.Template.Spec.Containers.map (fun c => c.Image) }

/-- The security configuration methods of the factory leave the reconciled fields alone. -/
def ConfiguratorsKeepFields {σ : Type} (factory : FunctionFactory σ) : Prop :=
  (∀ request d,
    reconciledFields (factory.ConfigureReadOnlyRootFilesystem request d) = reconciledFields d) ∧
  (∀ d, reconciledFields (factory.ConfigureContainerUserID d) = reconciledFields d)

/-- Secret injection leaves the reconciled fields alone. -/
def SecretsKeepFields {σ : Type} (pkg : Package σ) : Prop :=
  ∀ request d secrets,
    reconciledFields (pkg.UpdateSecrets request d secrets).2 = reconciledFields d

/-- The workloads passed to the store's deployment `Update`, in call order. -/
def committedDeployments : List Call → List Deployment
  | [] => []
  | Call.deploymentsUpdate _ d :: rest => d :: committedDeployments rest
  | _ :: rest => committedDeployments rest

/-- The endpoints passed to the store's service `Update`, in call order. -/
def committedServices : List Call → List Service
  | [] => []
  | Call.servicesUpdate _ s :: rest => s :: committedServices rest
  | _ :: rest => committedServices rest

/-- The first workload passed to the deployment `Update` in a trace (`fallback` if none). -/
def firstCommitted (calls : List Call) (fallback : Deployment) : Deployment :=
  (committedDeployments calls).headD fallback

/-- The first endpoint passed to the service `Update` in a trace (`fallback` if none). -/
def firstCommittedService (calls : List Call) (fallback : Service) : Service :=
  (committedServices calls).headD fallback

/-! ## Concrete inputs -/

/-- The stored single-container workload `echo` with one replica. -/
def echoStored : Deployment := echoDeployment "echo" [echoContainer] (some 1)

/-- A store holding the workload `echo` and its endpoint. -/
def echoWorld : World MemStore := freshWorld [echoStored] [echoService]

/-- Caller labels that collide with both reconciler-owned keys. -/
def spoofLabels : GoMap :=
  AList.insert "tier" "gold"
    (AList.insert "uid" "fixed" (AList.insert "faas_function" "spoofed" (∅ : GoMap)))

def spoofRequest : FunctionDeployment := echoRequest (some spoofLabels) none

def spoofPackage : Package MemStore :=
  memPackage (some spoofRequest) (Except.ok emptyResources) none

/-- The error of `createResources` on a malformed quantity string. -/
def badQuantity : GoError := ⟨"quantities must match the regular expression", false⟩

def plainRequest : FunctionDeployment := echoRequest none none

def plainPackage : Package MemStore :=
  memPackage (some plainRequest) (Except.ok emptyResources) none

/-- Package functions whose `createResources` rejects the request. -/
def badQuantityPackage : Package MemStore :=
  memPackage (some plainRequest) (Except.error badQuantity) none

/-- A stored workload `echo` whose pod template has no container. -/
def hollowStored : Deployment := echoDeployment "echo" [] (some 1)

def hollowWorld : World MemStore := freshWorld [hollowStored] [echoService]

/-- A stored workload `echo` with a second container next to the function. -/
def sidecarStored : Deployment :=
  echoDeployment "echo"
    [echoContainer, { echoContainer with Name := "proxy", Image := "proxy:2.1" }] (some 1)

def sidecarWorld : World MemStore := freshWorld [sidecarStored] [echoService]

/-- A stored workload `echo` whose `int32` replica count is negative. -/
def negativeStored : Deployment := echoDeployment "echo" [echoContainer] (some (-1))

def negativeWorld : World MemStore := freshWorld [negativeStored] [echoService]

/-- A store that holds the endpoint `echo` but no workload of that name. -/
def orphanWorld : World MemStore := freshWorld [] [echoService]

/-- The error of a store that cannot be reached. -/
def storeTimeout : GoError := ⟨"etcdserver: request timed out", false⟩

/-- A factory whose deployment `Update` always fails. -/
def brokenUpdateFactory : FunctionFactory MemStore :=
  { memFactory with
    Client := { memClient with DeploymentsUpdate := fun st _ _ => (some storeTimeout, st) } }

/-- A clientset whose deployment `Get` always fails with an error other than not-found. -/
def brokenGetClient : Clientset MemStore :=
  { memClient with DeploymentsGet := fun st _ _ => (Except.error storeTimeout, st) }

/-- A labelled workload in the reserved namespace. -/
def kubeDns : Deployment := { echoStored with Name := "dns", Namespace := "kube-system" }

def kubeSystemWorld : World MemStore := freshWorld [kubeDns] []

/-- A store in which the second function workload has an empty container list. -/
def brokenListWorld : World MemStore :=
  freshWorld [echoStored, echoDeployment "broken" [] (some 1)] []

/-- A request for `echo` carrying the minimum-replica label and two annotations. -/
def scaledRequest : FunctionDeployment :=
  echoRequest (some (AList.insert "com.openfaas.scale.min" "3" (∅ : GoMap)))
    (some (AList.insert "com.openfaas.serviceaccount" "builder" (∅ : GoMap)))

def scaledPackage : Package MemStore :=
  memPackage (some scaledRequest) (Except.ok emptyResources) (some 3)


/-! ## Theorems -/


/-! ### Label maps -/

theorem foldl_insert_lookup (l : List (Sigma (fun _ : String => String))) (hl : l.NodupKeys)
    (m : GoMap) (k : String) :
    (l.foldl (fun (labels : GoMap) e => AList.insert e.1 e.2 labels) m).lookup k
      = match l.dlookup k with
        | some v => some v
        | none => m.lookup k := by
  induction l generalizing m with
  | nil => simp
  | cons e l ih =>
    obtain ⟨a, b⟩ := e
    rw [List.nodupKeys_cons] at hl
    rw [List.foldl_cons, ih hl.2]
    by_cases hk : k = a
    · subst hk
      have : l.dlookup k = none := by
        rw [List.dlookup_eq_none]; exact hl.1
      simp [this, AList.lookup_insert]
    · have h3 : List.dlookup k (⟨a, b⟩ :: l) = List.dlookup k l :=
        List.dlookup_cons_ne l ⟨a, b⟩ hk
      simp [h3, AList.lookup_insert_ne hk]

theorem copyLabels_lookup (requestLabels labels : GoMap) (k : String) :
    (copyLabels requestLabels labels).lookup k
      = match requestLabels.lookup k with
        | some v => some v
        | none => labels.lookup k := by
  unfold copyLabels AList.foldl
  exact foldl_insert_lookup requestLabels.entries requestLabels.nodupKeys labels k

/-! ### The mutation phase of `updateDeploymentSpec` -/

theorem assignContainer0_cons (f : Container → Container) (d : Deployment) (c : Container)
    (cs : List Container) (h : d.Spec.Template.Spec.Containers = c :: cs) :
    assignContainer0 f d
      = Outcome.ret { d with Spec.Template.Spec.Containers := f c :: cs } := by
  unfold assignContainer0
  rw [h]

theorem applyRequest_cons {σ : Type} (factory : FunctionFactory σ) (pkg : Package σ)
    (request : FunctionDeployment) (annotations : GoMap) (nanosecond : Nat) (d : Deployment)
    (c : Container) (cs : List Container) (h : d.Spec.Template.Spec.Containers = c :: cs) :
    ∃ d1, applyRequest factory pkg request annotations nanosecond d = Outcome.ret d1 ∧
      reconciledFields d1 =
        { reconciledFields (factory.ConfigureContainerUserID
            (factory.ConfigureReadOnlyRootFilesystem request
              { d with Spec.Template.Spec.Containers :=
                  { c with Image := request.Image, Env := pkg.buildEnvVars request } :: cs }))
          with
          Annotations := annotations
          TemplateAnnotations := annotations
          TemplateLabels := buildLabels request nanosecond
          Replicas := buildReplicas pkg request (factory.ConfigureContainerUserID
            (factory.ConfigureReadOnlyRootFilesystem request
              { d with Spec.Template.Spec.Containers :=
                  { c with Image := request.Image, Env := pkg.buildEnvVars request } :: cs })).Spec.Replicas } := by
  unfold applyRequest
  rw [assignContainer0_cons _ d c cs h]
  simp only []
  rw [assignContainer0_cons _ _ { c with Image := request.Image } cs rfl]
  simp only []
  exact ⟨_, rfl, rfl⟩


theorem assignContainer0_fields (f : Container → Container) (d d' : Deployment)
    (h : assignContainer0 f d = Outcome.ret d') (hf : ∀ c, (f c).Image = c.Image) :
    reconciledFields d' = reconciledFields d := by
  unfold assignContainer0 at h
  split at h
  · cases h
  · next c cs hc =>
    cases h
    simp [reconciledFields, hc, hf]

theorem mutateDeployment_world {σ : Type} (ns : String) (factory : FunctionFactory σ)
    (pkg : Package σ) (request : FunctionDeployment) (annotations : GoMap) (nanosecond : Nat)
    (d : Deployment) (w : World σ) :
    (mutateDeployment ns factory pkg request annotations nanosecond d w).2.calls = w.calls ∧
    (mutateDeployment ns factory pkg request annotations nanosecond d w).2.response
      = w.response := by
  unfold mutateDeployment
  dsimp only
  repeat' split
  all_goals exact ⟨rfl, rfl⟩

theorem mutateDeployment_nil {σ : Type} (ns : String) (factory : FunctionFactory σ)
    (pkg : Package σ) (request : FunctionDeployment) (annotations : GoMap) (nanosecond : Nat)
    (d : Deployment) (w : World σ) (h : d.Spec.Template.Spec.Containers = []) :
    mutateDeployment ns factory pkg request annotations nanosecond d w
      = (Outcome.ret (Except.ok d), w) := by
  unfold mutateDeployment
  simp [h]

theorem mutateDeployment_ok {σ : Type} (ns : String) (factory : FunctionFactory σ)
    (pkg : Package σ) (request : FunctionDeployment) (annotations : GoMap) (nanosecond : Nat)
    (d d' : Deployment) (w w1 : World σ) (hS : SecretsKeepFields pkg)
    (hne : d.Spec.Template.Spec.Containers ≠ [])
    (h : mutateDeployment ns factory pkg request annotations nanosecond d w
      = (Outcome.ret (Except.ok d'), w1)) :
    ∃ d1, applyRequest factory pkg request annotations nanosecond d = Outcome.ret d1 ∧
      reconciledFields d' = reconciledFields d1 := by
  unfold mutateDeployment at h
  have hlen : d.Spec.Template.Spec.Containers.length > 0 := List.length_pos.mpr hne
  rw [if_pos hlen] at h
  split at h
  · cases h
  next d1 h1 =>
  refine ⟨d1, h1, ?_⟩
  split at h
  · cases h
  next resources hres =>
  split at h
  · cases h
  next d2 h2 =>
  simp only [] at h
  split at h
  · cases h
  next secrets hsec =>
  split at h
  · cases h
  next d3 hup =>
  split at h
  · cases h
  next probes hp =>
  split at h
  · cases h
  next d4 h4 =>
  split at h
  · cases h
  next d5 h5 =>
  cases h
  rw [assignContainer0_fields _ _ _ h5 (fun _ => rfl),
    assignContainer0_fields _ _ _ h4 (fun _ => rfl)]
  have hk := hS request
    { d2 with Spec.Template.Spec.ServiceAccountName := buildServiceAccount request } secrets
  rw [hup] at hk
  dsimp only at hk
  rw [hk, ← assignContainer0_fields _ _ _ h2 (fun _ => rfl)]
  rfl


/-! ### Store calls of `updateDeploymentSpec` -/

theorem updateDeploymentSpec_fetch_ok {σ : Type} (ns : String) (factory : FunctionFactory σ)
    (pkg : Package σ) (request : FunctionDeployment) (annotations : GoMap) (nanosecond : Nat)
    (w : World σ) (d : Deployment)
    (hget : (factory.Client.DeploymentsGet w.store ns request.Service).1 = Except.ok d) :
    updateDeploymentSpec ns factory pkg request annotations nanosecond w
      = match mutateDeployment ns factory pkg request annotations nanosecond d
          (World.DeploymentsGet factory.Client ns request.Service w).2 with
        | (Outcome.panic reason, w) => (Outcome.panic reason, w)
        | (Outcome.ret (Except.error (err, httpStatus)), w) =>
          (Outcome.ret (some err, httpStatus), w)
        | (Outcome.ret (Except.ok deployment), w) =>
          match World.DeploymentsUpdate factory.Client ns deployment w with
          | (some updateErr, w) => (Outcome.ret (some updateErr, StatusInternalServerError), w)
          | (none, w) => (Outcome.ret (none, StatusAccepted), w) := by
  unfold updateDeploymentSpec
  simp only [World.DeploymentsGet, hget]

theorem updateDeploymentSpec_trace {σ : Type} (ns : String) (factory : FunctionFactory σ)
    (pkg : Package σ) (request : FunctionDeployment) (annotations : GoMap) (nanosecond : Nat)
    (w : World σ) (d : Deployment)
    (hget : (factory.Client.DeploymentsGet w.store ns request.Service).1 = Except.ok d) :
    (∃ d' w1,
      mutateDeployment ns factory pkg request annotations nanosecond d
        (World.DeploymentsGet factory.Client ns request.Service w).2
        = (Outcome.ret (Except.ok d'), w1) ∧
      (updateDeploymentSpec ns factory pkg request annotations nanosecond w).2.calls
        = w.calls ++ [Call.deploymentsGet ns request.Service, Call.deploymentsUpdate ns d'] ∧
      (updateDeploymentSpec ns factory pkg request annotations nanosecond w).1
        = Outcome.ret (match (factory.Client.DeploymentsUpdate w1.store ns d').1 with
            | some updateErr => (some updateErr, StatusInternalServerError)
            | none => (none, StatusAccepted))) ∨
    ((updateDeploymentSpec ns factory pkg request annotations nanosecond w).2.calls
        = w.calls ++ [Call.deploymentsGet ns request.Service] ∧
      ∀ st, (updateDeploymentSpec ns factory pkg request annotations nanosecond w).1
        ≠ Outcome.ret (none, st)) := by
  rw [updateDeploymentSpec_fetch_ok ns factory pkg request annotations nanosecond w d hget]
  have hw := mutateDeployment_world ns factory pkg request annotations nanosecond d
    (World.DeploymentsGet factory.Client ns request.Service w).2
  generalize mutateDeployment ns factory pkg request annotations nanosecond d
    (World.DeploymentsGet factory.Client ns request.Service w).2 = r at hw ⊢
  obtain ⟨o, w1⟩ := r
  simp only [] at hw
  cases o with
  | panic reason =>
    right
    simp [hw.1, World.DeploymentsGet]
  | ret v =>
    cases v with
    | error e =>
      obtain ⟨err, status⟩ := e
      right
      simp [hw.1, World.DeploymentsGet]
    | ok d' =>
      left
      refine ⟨d', w1, rfl, ?_⟩
      simp only [World.DeploymentsUpdate]
      cases hu : (factory.Client.DeploymentsUpdate w1.store ns d').1 with
      | some e => simp [hu, hw.1, World.DeploymentsGet]
      | none => simp [hu, hw.1, World.DeploymentsGet]

theorem updateDeploymentSpec_accepted {σ : Type} (ns : String) (factory : FunctionFactory σ)
    (pkg : Package σ) (request : FunctionDeployment) (annotations : GoMap) (nanosecond : Nat)
    (w : World σ) (d : Deployment) (st : Nat)
    (hget : (factory.Client.DeploymentsGet w.store ns request.Service).1 = Except.ok d)
    (hret : (updateDeploymentSpec ns factory pkg request annotations nanosecond w).1
      = Outcome.ret (none, st)) :
    ∃ d' w1,
      mutateDeployment ns factory pkg request annotations nanosecond d
        (World.DeploymentsGet factory.Client ns request.Service w).2
        = (Outcome.ret (Except.ok d'), w1) ∧
      (updateDeploymentSpec ns factory pkg request annotations nanosecond w).2.calls
        = w.calls ++ [Call.deploymentsGet ns request.Service, Call.deploymentsUpdate ns d'] := by
  rcases updateDeploymentSpec_trace ns factory pkg request annotations nanosecond w d hget with
    ⟨d', w1, hm, hc, _⟩ | ⟨_, hno⟩
  · exact ⟨d', w1, hm, hc⟩
  · exact absurd hret (hno st)

theorem updateDeploymentSpec_committed {σ : Type} (ns : String) (factory : FunctionFactory σ)
    (pkg : Package σ) (request : FunctionDeployment) (annotations : GoMap) (nanosecond : Nat)
    (w : World σ) (d d' : Deployment)
    (hget : (factory.Client.DeploymentsGet w.store ns request.Service).1 = Except.ok d)
    (hcommit : (updateDeploymentSpec ns factory pkg request annotations nanosecond w).2.calls
      = w.calls ++ [Call.deploymentsGet ns request.Service, Call.deploymentsUpdate ns d']) :
    ∃ w1,
      mutateDeployment ns factory pkg request annotations nanosecond d
        (World.DeploymentsGet factory.Client ns request.Service w).2
        = (Outcome.ret (Except.ok d'), w1) := by
  rcases updateDeploymentSpec_trace ns factory pkg request annotations nanosecond w d hget with
    ⟨d2, w1, hm, hc, _⟩ | ⟨hc, _⟩
  · rw [hc] at hcommit
    have := List.append_cancel_left hcommit
    simp only [List.cons.injEq, Call.deploymentsUpdate.injEq, true_and, and_true] at this
    subst this
    exact ⟨w1, hm⟩
  · rw [hc] at hcommit
    have := List.append_cancel_left hcommit
    simp at this

/-- The fields of the deployment produced by a successful mutation phase on a workload
whose first container is `c`. -/
theorem mutateDeployment_fields {σ : Type} (ns : String) (factory : FunctionFactory σ)
    (pkg : Package σ) (request : FunctionDeployment) (annotations : GoMap) (nanosecond : Nat)
    (d d' : Deployment) (w w1 : World σ) (c : Container) (cs : List Container)
    (hS : SecretsKeepFields pkg) (hc : d.Spec.Template.Spec.Containers = c :: cs)
    (h : mutateDeployment ns factory pkg request annotations nanosecond d w
      = (Outcome.ret (Except.ok d'), w1)) :
    d'.Annotations = annotations ∧ d'.Spec.Template.Annotations = annotations ∧
    d'.Spec.Template.Labels = buildLabels request nanosecond := by
  have hne : d.Spec.Template.Spec.Containers ≠ [] := by rw [hc]; simp
  obtain ⟨d1, h1, hf⟩ :=
    mutateDeployment_ok ns factory pkg request annotations nanosecond d d' w w1 hS hne h
  obtain ⟨d1', h1', hf'⟩ :=
    applyRequest_cons factory pkg request annotations nanosecond d c cs hc
  rw [h1] at h1'
  cases h1'
  rw [hf'] at hf
  simp only [reconciledFields, ReconciledFields.mk.injEq] at hf
  exact ⟨hf.2.2.1, hf.2.2.2.2.2.1, hf.2.2.2.2.1⟩


/-! ### Labels (C1) -/

theorem buildLabels_lookup (request : FunctionDeployment) (nanosecond : Nat) (k : String) :
    (buildLabels request nanosecond).lookup k
      = match request.Labels.bind (AList.lookup k) with
        | some v => some v
        | none => (ownedLabels request nanosecond).lookup k := by
  unfold buildLabels
  cases hl : request.Labels with
  | none => simp
  | some l =>
    simp only [Option.some_bind]
    exact copyLabels_lookup l _ k

theorem ownedLabels_faas_function (request : FunctionDeployment) (nanosecond : Nat) :
    (ownedLabels request nanosecond).lookup "faas_function" = some request.Service := by
  unfold ownedLabels
  rw [AList.lookup_insert_ne (by decide), AList.lookup_insert]

theorem ownedLabels_uid (request : FunctionDeployment) (nanosecond : Nat) :
    (ownedLabels request nanosecond).lookup "uid" = some (toString nanosecond) := by
  unfold ownedLabels
  rw [AList.lookup_insert]

/-- C1 (amended): whenever the reconcile of a workload with at least one container commits a
workload, the committed pod-template label map has both keys `faas_function` and `uid`, but
the caller's labels win on every key collision, the two owned keys included:
`faas_function` is `request.Service` and `uid` is the generated value only when the caller's
label map does not itself contain that key. -/
theorem updateDeploymentSpec_labels_caller_wins {σ : Type} (ns : String)
    (factory : FunctionFactory σ) (pkg : Package σ) (request : FunctionDeployment)
    (annotations : GoMap) (nanosecond : Nat) (w : World σ) (d d' : Deployment)
    (hS : SecretsKeepFields pkg)
    (hget : (factory.Client.DeploymentsGet w.store ns request.Service).1 = Except.ok d)
    (hne : d.Spec.Template.Spec.Containers ≠ [])
    (hcommit : (updateDeploymentSpec ns factory pkg request annotations nanosecond w).2.calls
      = w.calls ++ [Call.deploymentsGet ns request.Service, Call.deploymentsUpdate ns d']) :
    d'.Spec.Template.Labels.lookup "faas_function"
      = some (match request.Labels.bind (AList.lookup "faas_function") with
          | some v => v
          | none => request.Service) ∧
    d'.Spec.Template.Labels.lookup "uid"
      = some (match request.Labels.bind (AList.lookup "uid") with
          | some v => v
          | none => toString nanosecond) ∧
    ∀ l k v, request.Labels = some l → l.lookup k = some v →
      d'.Spec.Template.Labels.lookup k = some v := by
  obtain ⟨w1, hm⟩ := updateDeploymentSpec_committed ns factory pkg request annotations
    nanosecond w d d' hget hcommit
  obtain ⟨c, cs, hc⟩ := List.exists_cons_of_ne_nil hne
  obtain ⟨_, _, hl⟩ := mutateDeployment_fields ns factory pkg request annotations nanosecond
    d d' _ w1 c cs hS hc hm
  rw [hl]
  refine ⟨?_, ?_, ?_⟩
  · rw [buildLabels_lookup]
    cases request.Labels.bind (AList.lookup "faas_function") with
    | none => exact ownedLabels_faas_function request nanosecond
    | some v => rfl
  · rw [buildLabels_lookup]
    cases request.Labels.bind (AList.lookup "uid") with
    | none => exact ownedLabels_uid request nanosecond
    | some v => rfl
  · intro l k v hl hk
    rw [buildLabels_lookup, hl]
    simp [hk]

theorem memPackage_keeps_fields (decoded : Option FunctionDeployment)
    (resources : Except GoError ResourceRequirements) (minReplicas : Option Int) :
    SecretsKeepFields (memPackage decoded resources minReplicas) := by
  intro request d secrets
  rfl

theorem memFactory_keeps_fields : ConfiguratorsKeepFields memFactory := by
  constructor
  · intro request d
    simp only [memFactory]
    split
    · rfl
    · next c cs hc => simp [reconciledFields, hc]
  · intro d
    simp only [memFactory]
    split
    · rfl
    · next c cs hc => simp [reconciledFields, hc]


/-- C1 (counterexample): a caller label map containing `faas_function` and `uid` overrides
both owned keys in the committed pod-template labels. -/
theorem owned_labels_overridden :
    ∃ d ∈ committedDeployments
        (updateDeploymentSpec "openfaas-fn" memFactory spoofPackage spoofRequest ∅ 7
          echoWorld).2.calls,
      d.Spec.Template.Labels.lookup "faas_function" ≠ some spoofRequest.Service ∧
      d.Spec.Template.Labels.lookup "faas_function" = some "spoofed" ∧
      d.Spec.Template.Labels.lookup "uid" = some "fixed" := by
  decide

/-- C1 (witness): the amended label property at the colliding caller labels. -/
theorem updateDeploymentSpec_labels_caller_wins_witness :
    SecretsKeepFields spoofPackage ∧
    (memFactory.Client.DeploymentsGet echoWorld.store "openfaas-fn" spoofRequest.Service).1
      = Except.ok echoStored ∧
    echoStored.Spec.Template.Spec.Containers ≠ [] ∧
    (updateDeploymentSpec "openfaas-fn" memFactory spoofPackage spoofRequest ∅ 7
        echoWorld).2.calls
      = echoWorld.calls ++ [Call.deploymentsGet "openfaas-fn" spoofRequest.Service,
          Call.deploymentsUpdate "openfaas-fn"
            (firstCommitted (updateDeploymentSpec "openfaas-fn" memFactory spoofPackage
              spoofRequest ∅ 7 echoWorld).2.calls echoStored)] ∧
    (firstCommitted (updateDeploymentSpec "openfaas-fn" memFactory spoofPackage
        spoofRequest ∅ 7 echoWorld).2.calls echoStored).Spec.Template.Labels.lookup
          "faas_function" = some "spoofed" ∧
    (firstCommitted (updateDeploymentSpec "openfaas-fn" memFactory spoofPackage
        spoofRequest ∅ 7 echoWorld).2.calls echoStored).Spec.Template.Labels.lookup
          "uid" = some "fixed" :=
  ⟨memPackage_keeps_fields _ _ _, rfl, by decide, rfl,
    (updateDeploymentSpec_labels_caller_wins "openfaas-fn" memFactory spoofPackage spoofRequest
      ∅ 7 echoWorld echoStored _ (memPackage_keeps_fields _ _ _) rfl (by decide) rfl).1,
    (updateDeploymentSpec_labels_caller_wins "openfaas-fn" memFactory spoofPackage spoofRequest
      ∅ 7 echoWorld echoStored _ (memPackage_keeps_fields _ _ _) rfl (by decide) rfl).2.1⟩

/-! ### Resource parse failure (C5) -/

theorem mutateDeployment_createResources_error {σ : Type} (ns : String)
    (factory : FunctionFactory σ) (pkg : Package σ) (request : FunctionDeployment)
    (annotations : GoMap) (nanosecond : Nat) (d : Deployment) (w : World σ) (e : GoError)
    (hne : d.Spec.Template.Spec.Containers ≠ [])
    (hres : pkg.createResources request = Except.error e) :
    mutateDeployment ns factory pkg request annotations nanosecond d w
      = (Outcome.ret (Except.error (e, StatusBadRequest)), w) := by
  obtain ⟨c, cs, hc⟩ := List.exists_cons_of_ne_nil hne
  obtain ⟨d1, h1, _⟩ := applyRequest_cons factory pkg request annotations nanosecond d c cs hc
  unfold mutateDeployment
  have hlen : d.Spec.Template.Spec.Containers.length > 0 := List.length_pos.mpr hne
  rw [if_pos hlen, h1]
  simp only [hres]

theorem updateDeploymentSpec_createResources_error {σ : Type} (ns : String)
    (factory : FunctionFactory σ) (pkg : Package σ) (request : FunctionDeployment)
    (annotations : GoMap) (nanosecond : Nat) (w : World σ) (d : Deployment) (e : GoError)
    (hget : (factory.Client.DeploymentsGet w.store ns request.Service).1 = Except.ok d)
    (hne : d.Spec.Template.Spec.Containers ≠ [])
    (hres : pkg.createResources request = Except.error e) :
    updateDeploymentSpec ns factory pkg request annotations nanosecond w
      = (Outcome.ret (some e, StatusBadRequest),
          (World.DeploymentsGet factory.Client ns request.Service w).2) := by
  rw [updateDeploymentSpec_fetch_ok ns factory pkg request annotations nanosecond w d hget,
    mutateDeployment_createResources_error ns factory pkg request annotations nanosecond d _ e
      hne hres]

/-- C5 (amended): when the workload fetch succeeds with a workload that has at least one
container and `createResources` returns an error, `updateDeploymentSpec` returns that error
with the bad-request status and its only store call is the fetch (no workload `Update`); the
handler, when `isNotFound` does not classify the error as not-found, makes no further store
call either, so no endpoint `Update` happens. -/
theorem createResources_error_aborts {σ : Type} (ns : String) (factory : FunctionFactory σ)
    (pkg : Package σ) (request : FunctionDeployment) (annotations : GoMap) (nanosecond : Nat)
    (w : World σ) (d : Deployment) (e : GoError)
    (hget : (factory.Client.DeploymentsGet w.store ns request.Service).1 = Except.ok d)
    (hne : d.Spec.Template.Spec.Containers ≠ [])
    (hres : pkg.createResources request = Except.error e) :
    (updateDeploymentSpec ns factory pkg request annotations nanosecond w).1
      = Outcome.ret (some e, StatusBadRequest) ∧
    (updateDeploymentSpec ns factory pkg request annotations nanosecond w).2.calls
      = w.calls ++ [Call.deploymentsGet ns request.Service] ∧
    ∀ (defaultNamespace : String) (r : HttpRequest),
      pkg.unmarshal r.Body = some request →
      (if r.namespaceQuery.length > 0 then r.namespaceQuery else defaultNamespace) = ns →
      pkg.isNotFound e = false →
      (MakeUpdateHandler defaultNamespace factory pkg nanosecond r w).2.calls
        = w.calls ++ [Call.deploymentsGet ns request.Service] := by
  refine ⟨?_, ?_, ?_⟩
  · rw [updateDeploymentSpec_createResources_error ns factory pkg request annotations
      nanosecond w d e hget hne hres]
  · rw [updateDeploymentSpec_createResources_error ns factory pkg request annotations
      nanosecond w d e hget hne hres]
    rfl
  · intro defaultNamespace r hun hns hnf
    unfold MakeUpdateHandler
    simp only [hns, hun]
    split_ifs with hk
    · rw [updateDeploymentSpec_createResources_error ns factory pkg request _ nanosecond
        (World.httpError "unable to list within the kube-system namespace"
          StatusUnauthorized w) d e hget hne hres]
      simp [hnf]
      rfl
    · rw [updateDeploymentSpec_createResources_error ns factory pkg request _ nanosecond
        w d e hget hne hres]
      simp [hnf]
      rfl

/-- C5 (counterexample): with a stored workload that has no container, a failing
`createResources` is never consulted: the workload `Update` is invoked and the result is
`(nil, 202)`; and with no stored workload the result is the fetch error with status 404,
not the resource error. -/
theorem createResources_error_not_returned :
    badQuantityPackage.createResources plainRequest = Except.error badQuantity ∧
    (updateDeploymentSpec "openfaas-fn" memFactory badQuantityPackage plainRequest ∅ 7
      hollowWorld).1 = Outcome.ret (none, StatusAccepted) ∧
    committedDeployments (updateDeploymentSpec "openfaas-fn" memFactory badQuantityPackage
      plainRequest ∅ 7 hollowWorld).2.calls = [hollowStored] ∧
    (updateDeploymentSpec "openfaas-fn" memFactory badQuantityPackage plainRequest ∅ 7
      orphanWorld).1
      = Outcome.ret (some (notFoundError "deployments.apps" "echo"), StatusNotFound) :=
  ⟨rfl, rfl, rfl, rfl⟩

/-- C5 (witness): a rejected quantity on the single-container workload `echo`. -/
theorem createResources_error_aborts_witness :
    (memFactory.Client.DeploymentsGet echoWorld.store "openfaas-fn" plainRequest.Service).1
      = Except.ok echoStored ∧
    echoStored.Spec.Template.Spec.Containers ≠ [] ∧
    badQuantityPackage.createResources plainRequest = Except.error badQuantity ∧
    (updateDeploymentSpec "openfaas-fn" memFactory badQuantityPackage plainRequest ∅ 7
      echoWorld).1 = Outcome.ret (some badQuantity, StatusBadRequest) ∧
    (updateDeploymentSpec "openfaas-fn" memFactory badQuantityPackage plainRequest ∅ 7
      echoWorld).2.calls
      = echoWorld.calls ++ [Call.deploymentsGet "openfaas-fn" plainRequest.Service] ∧
    (MakeUpdateHandler "openfaas-fn" memFactory badQuantityPackage 7 ⟨"", "body"⟩
      echoWorld).2.calls
      = echoWorld.calls ++ [Call.deploymentsGet "openfaas-fn" plainRequest.Service] :=
  ⟨rfl, by decide, rfl,
    (createResources_error_aborts "openfaas-fn" memFactory badQuantityPackage plainRequest ∅ 7
      echoWorld echoStored badQuantity rfl (by decide) rfl).1,
    (createResources_error_aborts "openfaas-fn" memFactory badQuantityPackage plainRequest ∅ 7
      echoWorld echoStored badQuantity rfl (by decide) rfl).2.1,
    (createResources_error_aborts "openfaas-fn" memFactory badQuantityPackage plainRequest ∅ 7
      echoWorld echoStored badQuantity rfl (by decide) rfl).2.2 "openfaas-fn" ⟨"", "body"⟩
      rfl rfl rfl⟩

/-! ### Container count (C7) -/

theorem mutateDeployment_error_source {σ : Type} (ns : String) (factory : FunctionFactory σ)
    (pkg : Package σ) (request : FunctionDeployment) (annotations : GoMap) (nanosecond : Nat)
    (d : Deployment) (w w1 : World σ) (err : GoError) (st : Nat)
    (h : mutateDeployment ns factory pkg request annotations nanosecond d w
      = (Outcome.ret (Except.error (err, st)), w1)) :
    st = StatusBadRequest ∧
    (pkg.createResources request = Except.error err ∨
      (∃ store, (pkg.getSecrets store ns request.Secrets).1 = Except.error err) ∨
      (∃ d2 secrets, (pkg.UpdateSecrets request d2 secrets).1 = some err) ∨
      factory.MakeProbes request = Except.error err) := by
  unfold mutateDeployment at h
  split at h
  · split at h
    · cases h
    split at h
    · next e hres =>
      cases h
      exact ⟨rfl, Or.inl hres⟩
    split at h
    · cases h
    simp only [] at h
    split at h
    · next e hsec =>
      cases h
      exact ⟨rfl, Or.inr (Or.inl ⟨_, hsec⟩)⟩
    split at h
    · next e d3 hup =>
      cases h
      exact ⟨rfl, Or.inr (Or.inr (Or.inl ⟨_, _, by rw [hup]⟩))⟩
    split at h
    · next e hp =>
      cases h
      exact ⟨rfl, Or.inr (Or.inr (Or.inr hp))⟩
    split at h
    · cases h
    split at h
    · cases h
    · cases h
  · cases h

/-- C7 (amended): there is no inconsistent-workload error. If the fetched workload has no
container, `updateDeploymentSpec` does not crash, applies no mutation, passes the workload
unchanged to the store `Update` and returns that call's outcome (`(nil, 202)`, or the update
error with status 500). For any number of containers, every error it returns after a
successful fetch is the error of `createResources`, `getSecrets`, `UpdateSecrets` or
`MakeProbes` (status 400) or of the store `Update` (status 500). -/
theorem updateDeploymentSpec_container_count {σ : Type} (ns : String)
    (factory : FunctionFactory σ) (pkg : Package σ) (request : FunctionDeployment)
    (annotations : GoMap) (nanosecond : Nat) (w : World σ) (d : Deployment)
    (hget : (factory.Client.DeploymentsGet w.store ns request.Service).1 = Except.ok d) :
    (d.Spec.Template.Spec.Containers = [] →
      (updateDeploymentSpec ns factory pkg request annotations nanosecond w).1
        = Outcome.ret
            (match (factory.Client.DeploymentsUpdate
                (factory.Client.DeploymentsGet w.store ns request.Service).2 ns d).1 with
              | some updateErr => (some updateErr, StatusInternalServerError)
              | none => (none, StatusAccepted)) ∧
      (updateDeploymentSpec ns factory pkg request annotations nanosecond w).2.calls
        = w.calls ++ [Call.deploymentsGet ns request.Service, Call.deploymentsUpdate ns d]) ∧
    ∀ err st,
      (updateDeploymentSpec ns factory pkg request annotations nanosecond w).1
        = Outcome.ret (some err, st) →
      (st = StatusBadRequest ∧
        (pkg.createResources request = Except.error err ∨
          (∃ store, (pkg.getSecrets store ns request.Secrets).1 = Except.error err) ∨
          (∃ d2 secrets, (pkg.UpdateSecrets request d2 secrets).1 = some err) ∨
          factory.MakeProbes request = Except.error err)) ∨
      (st = StatusInternalServerError ∧
        ∃ store d', (factory.Client.DeploymentsUpdate store ns d').1 = some err) := by
  constructor
  · intro hnil
    rw [updateDeploymentSpec_fetch_ok ns factory pkg request annotations nanosecond w d hget,
      mutateDeployment_nil ns factory pkg request annotations nanosecond d _ hnil]
    simp only [World.DeploymentsUpdate, World.DeploymentsGet]
    cases hu : (factory.Client.DeploymentsUpdate
      (factory.Client.DeploymentsGet w.store ns request.Service).2 ns d).1 with
    | some e => simp [hu]
    | none => simp [hu]
  · intro err st hret
    rw [updateDeploymentSpec_fetch_ok ns factory pkg request annotations nanosecond w d hget]
      at hret
    rcases hm : mutateDeployment ns factory pkg request annotations nanosecond d
      (World.DeploymentsGet factory.Client ns request.Service w).2 with ⟨o, w1⟩
    rw [hm] at hret
    cases o with
    | panic reason => simp at hret
    | ret v =>
      cases v with
      | error e =>
        obtain ⟨err', st'⟩ := e
        simp only [Outcome.ret.injEq, Prod.mk.injEq, Option.some.injEq] at hret
        obtain ⟨rfl, rfl⟩ := hret
        exact Or.inl (mutateDeployment_error_source ns factory pkg request annotations
          nanosecond d _ w1 err' st' hm)
      | ok d' =>
        right
        simp only [World.DeploymentsUpdate] at hret
        cases hu : (factory.Client.DeploymentsUpdate w1.store ns d').1 with
        | some e =>
          simp only [hu, Outcome.ret.injEq, Prod.mk.injEq, Option.some.injEq] at hret
          obtain ⟨rfl, rfl⟩ := hret
          exact ⟨rfl, _, _, hu⟩
        | none => simp [hu] at hret

/-- C7 (counterexample): a workload without containers, and one with two containers, are
both committed and reported as accepted with a nil error. -/
theorem no_inconsistent_workload_error :
    hollowStored.Spec.Template.Spec.Containers.length = 0 ∧
    (updateDeploymentSpec "openfaas-fn" memFactory plainPackage plainRequest ∅ 7
      hollowWorld).1 = Outcome.ret (none, StatusAccepted) ∧
    committedDeployments (updateDeploymentSpec "openfaas-fn" memFactory plainPackage
      plainRequest ∅ 7 hollowWorld).2.calls = [hollowStored] ∧
    sidecarStored.Spec.Template.Spec.Containers.length = 2 ∧
    (updateDeploymentSpec "openfaas-fn" memFactory plainPackage plainRequest ∅ 7
      sidecarWorld).1 = Outcome.ret (none, StatusAccepted) ∧
    (committedDeployments (updateDeploymentSpec "openfaas-fn" memFactory plainPackage
      plainRequest ∅ 7 sidecarWorld).2.calls).length = 1 :=
  ⟨rfl, rfl, rfl, rfl, rfl, rfl⟩

/-- C7 (witness): the container-less workload with a store whose `Update` fails, so that
both parts of the amended statement are exercised. -/
theorem updateDeploymentSpec_container_count_witness :
    (brokenUpdateFactory.Client.DeploymentsGet hollowWorld.store "openfaas-fn"
      plainRequest.Service).1 = Except.ok hollowStored ∧
    hollowStored.Spec.Template.Spec.Containers = [] ∧
    (updateDeploymentSpec "openfaas-fn" brokenUpdateFactory plainPackage plainRequest ∅ 7
      hollowWorld).1 = Outcome.ret (some storeTimeout, StatusInternalServerError) ∧
    (updateDeploymentSpec "openfaas-fn" brokenUpdateFactory plainPackage plainRequest ∅ 7
      hollowWorld).2.calls
      = hollowWorld.calls ++ [Call.deploymentsGet "openfaas-fn" plainRequest.Service,
          Call.deploymentsUpdate "openfaas-fn" hollowStored] ∧
    ((StatusInternalServerError = StatusBadRequest ∧
        (plainPackage.createResources plainRequest = Except.error storeTimeout ∨
          (∃ store, (plainPackage.getSecrets store "openfaas-fn" plainRequest.Secrets).1
            = Except.error storeTimeout) ∨
          (∃ d2 secrets, (plainPackage.UpdateSecrets plainRequest d2 secrets).1
            = some storeTimeout) ∨
          brokenUpdateFactory.MakeProbes plainRequest = Except.error storeTimeout)) ∨
      (StatusInternalServerError = StatusInternalServerError ∧
        ∃ store d', (brokenUpdateFactory.Client.DeploymentsUpdate store "openfaas-fn" d').1
          = some storeTimeout)) :=
  ⟨rfl, rfl,
    ((updateDeploymentSpec_container_count "openfaas-fn" brokenUpdateFactory plainPackage
      plainRequest ∅ 7 hollowWorld hollowStored rfl).1 rfl).1,
    ((updateDeploymentSpec_container_count "openfaas-fn" brokenUpdateFactory plainPackage
      plainRequest ∅ 7 hollowWorld hollowStored rfl).1 rfl).2,
    (updateDeploymentSpec_container_count "openfaas-fn" brokenUpdateFactory plainPackage
      plainRequest ∅ 7 hollowWorld hollowStored rfl).2 storeTimeout StatusInternalServerError
      rfl⟩

/-! ### Annotations (C8) -/

theorem updateService_accepted {σ : Type} (ns : String) (factory : FunctionFactory σ)
    (request : FunctionDeployment) (annotations : GoMap) (w : World σ) (st : Nat)
    (h : (updateService ns factory request annotations w).1 = (none, st)) :
    ∃ s, (factory.Client.ServicesGet w.store ns request.Service).1 = Except.ok s ∧
      (updateService ns factory request annotations w).2.calls
        = w.calls ++ [Call.servicesGet ns request.Service,
            Call.servicesUpdate ns { s with Annotations := annotations }] := by
  unfold updateService at h ⊢
  simp only [World.ServicesGet] at h ⊢
  cases hg : (factory.Client.ServicesGet w.store ns request.Service).1 with
  | error e => simp [hg] at h
  | ok s =>
    refine ⟨s, rfl, ?_⟩
    simp only [hg, World.ServicesUpdate] at h ⊢
    cases hu : (factory.Client.ServicesUpdate
      (factory.Client.ServicesGet w.store ns request.Service).2 ns
      { s with Annotations := annotations }).1 with
    | some e => simp [hu] at h
    | none => simp [hu]

/-- C8: after a successful `updateDeploymentSpec` and `updateService` with annotation map
`A` on a workload with at least one container, the committed workload's own annotations, its
pod-template annotations and the committed endpoint's annotations are all exactly `A`,
whatever they were before (secret injection being assumed to leave annotations alone). -/
theorem annotations_replaced_wholesale {σ : Type} (ns : String) (factory : FunctionFactory σ)
    (pkg : Package σ) (request : FunctionDeployment) (A : GoMap) (nanosecond : Nat)
    (w : World σ) (d : Deployment) (st st' : Nat)
    (hS : SecretsKeepFields pkg)
    (hget : (factory.Client.DeploymentsGet w.store ns request.Service).1 = Except.ok d)
    (hne : d.Spec.Template.Spec.Containers ≠ [])
    (hdep : (updateDeploymentSpec ns factory pkg request A nanosecond w).1
      = Outcome.ret (none, st))
    (hsvc : (updateService ns factory request A
      (updateDeploymentSpec ns factory pkg request A nanosecond w).2).1 = (none, st')) :
    ∃ d' s',
      (updateService ns factory request A
          (updateDeploymentSpec ns factory pkg request A nanosecond w).2).2.calls
        = w.calls ++ [Call.deploymentsGet ns request.Service, Call.deploymentsUpdate ns d',
            Call.servicesGet ns request.Service, Call.servicesUpdate ns s'] ∧
      d'.Annotations = A ∧ d'.Spec.Template.Annotations = A ∧ s'.Annotations = A := by
  obtain ⟨d', w1, hm, hc⟩ := updateDeploymentSpec_accepted ns factory pkg request A nanosecond
    w d st hget hdep
  obtain ⟨s, _, hs⟩ := updateService_accepted ns factory request A _ st' hsvc
  obtain ⟨c, cs, hcs⟩ := List.exists_cons_of_ne_nil hne
  obtain ⟨ha, hta, _⟩ := mutateDeployment_fields ns factory pkg request A nanosecond
    d d' _ w1 c cs hS hcs hm
  refine ⟨d', { s with Annotations := A }, ?_, ha, hta, rfl⟩
  rw [hs, hc]
  simp

/-- C8 (witness): reconciling `echo` with the empty annotation map clears the annotations
that the stored workload and endpoint carried. -/
theorem annotations_replaced_wholesale_witness :
    SecretsKeepFields plainPackage ∧
    (memFactory.Client.DeploymentsGet echoWorld.store "openfaas-fn" plainRequest.Service).1
      = Except.ok echoStored ∧
    echoStored.Spec.Template.Spec.Containers ≠ [] ∧
    (updateDeploymentSpec "openfaas-fn" memFactory plainPackage plainRequest ∅ 7
      echoWorld).1 = Outcome.ret (none, StatusAccepted) ∧
    (updateService "openfaas-fn" memFactory plainRequest ∅
      (updateDeploymentSpec "openfaas-fn" memFactory plainPackage plainRequest ∅ 7
        echoWorld).2).1 = (none, StatusAccepted) ∧
    echoStored.Annotations.lookup "team" = some "blue" ∧
    echoStored.Spec.Template.Annotations.lookup "team" = some "blue" ∧
    echoService.Annotations.lookup "team" = some "blue" ∧
    ∃ d' s',
      (updateService "openfaas-fn" memFactory plainRequest ∅
          (updateDeploymentSpec "openfaas-fn" memFactory plainPackage plainRequest ∅ 7
            echoWorld).2).2.calls
        = echoWorld.calls ++ [Call.deploymentsGet "openfaas-fn" plainRequest.Service,
            Call.deploymentsUpdate "openfaas-fn" d',
            Call.servicesGet "openfaas-fn" plainRequest.Service,
            Call.servicesUpdate "openfaas-fn" s'] ∧
      d'.Annotations = ∅ ∧ d'.Spec.Template.Annotations = ∅ ∧ s'.Annotations = ∅ :=
  ⟨memPackage_keeps_fields _ _ _, rfl, by decide, rfl, rfl, by decide, by decide, by decide,
    annotations_replaced_wholesale "openfaas-fn" memFactory plainPackage plainRequest ∅ 7
      echoWorld echoStored StatusAccepted StatusAccepted (memPackage_keeps_fields _ _ _)
      rfl (by decide) rfl rfl⟩

/-! ### Round trip through `readFunction` (C9) -/

theorem mutateDeployment_reconciled {σ : Type} (ns : String) (factory : FunctionFactory σ)
    (pkg : Package σ) (request : FunctionDeployment) (annotations : GoMap) (nanosecond : Nat)
    (d d' : Deployment) (w w1 : World σ) (c : Container) (cs : List Container)
    (hC : ConfiguratorsKeepFields factory) (hS : SecretsKeepFields pkg)
    (hc : d.Spec.Template.Spec.Containers = c :: cs)
    (h : mutateDeployment ns factory pkg request annotations nanosecond d w
      = (Outcome.ret (Except.ok d'), w1)) :
    reconciledFields d' =
      { Name := d.Name, Namespace := d.Namespace, Annotations := annotations,
        Replicas := buildReplicas pkg request d.Spec.Replicas,
        TemplateLabels := buildLabels request nanosecond,
        TemplateAnnotations := annotations,
        Images := request.Image :: cs.map (fun c => c.Image) } := by
  have hne : d.Spec.Template.Spec.Containers ≠ [] := by rw [hc]; simp
  obtain ⟨d1, h1, hf⟩ :=
    mutateDeployment_ok ns factory pkg request annotations nanosecond d d' w w1 hS hne h
  obtain ⟨d1', h1', hf'⟩ :=
    applyRequest_cons factory pkg request annotations nanosecond d c cs hc
  rw [h1] at h1'
  cases h1'
  rw [hf, hf']
  have hk := (hC.2 (factory.ConfigureReadOnlyRootFilesystem request
      { d with Spec.Template.Spec.Containers :=
          { c with Image := request.Image, Env := pkg.buildEnvVars request } :: cs })).trans
    (hC.1 request
      { d with Spec.Template.Spec.Containers :=
          { c with Image := request.Image, Env := pkg.buildEnvVars request } :: cs })
  have hr : (factory.ConfigureContainerUserID (factory.ConfigureReadOnlyRootFilesystem request
      { d with Spec.Template.Spec.Containers :=
          { c with Image := request.Image, Env := pkg.buildEnvVars request } :: cs })).Spec.Replicas
      = d.Spec.Replicas := congrArg ReconciledFields.Replicas hk
  rw [hr, hk]
  simp [reconciledFields]

theorem readFunction_of_fields (d : Deployment) (image : String) (rest : List String)
    (h : (reconciledFields d).Images = image :: rest) :
    readFunction d = Outcome.ret (some
      { Name := d.Name
        Replicas := match d.Spec.Replicas with
          | some r => uint64 r
          | none => 0
        Image := image
        AvailableReplicas := uint64 d.Status.AvailableReplicas
        InvocationCount := 0
        Labels := some d.Spec.Template.Labels
        Annotations := some d.Spec.Template.Annotations
        Namespace := d.Namespace }) := by
  simp only [reconciledFields] at h
  cases hc : d.Spec.Template.Spec.Containers with
  | nil => simp [hc] at h
  | cons c cs =>
    simp only [hc, List.map_cons, List.cons.injEq] at h
    simp [readFunction, hc, h.1]

theorem uint64_of_nonneg (r : Int) (h0 : 0 ≤ r) (h1 : r < 2 ^ 31) : (uint64 r : Int) = r := by
  unfold uint64
  have h2 : r % 2 ^ 64 = r := Int.emod_eq_of_lt h0 (by omega)
  rw [h2]
  exact Int.toNat_of_nonneg h0

theorem uint64_of_neg (r : Int) (h0 : r < 0) (h1 : -(2 ^ 31) ≤ r) :
    (uint64 r : Int) = 2 ^ 64 + r := by
  unfold uint64
  have h2 : r % 2 ^ 64 = (r + 2 ^ 64) % 2 ^ 64 := (Int.add_emod_self).symm
  have h3 : (r + 2 ^ 64) % 2 ^ 64 = r + 2 ^ 64 := Int.emod_eq_of_lt (by omega) (by omega)
  rw [h2, h3, Int.toNat_of_nonneg (by omega)]
  omega

/-- C9 (amended): after a successful reconcile of a workload with at least one container
(the security configuration and secret injection leaving the reconciled fields alone),
`readFunction` of the committed workload reports `request.Image`, the label map built by the
reconcile, the unchanged name and namespace, invocation count 0, and as `Replicas` the
`uint64` conversion of the replica count set by the reconcile: equal to that count when it
is a non-negative `int32`, `2 ^ 64` plus the count when it is a negative `int32`, and 0 when
it is unset. -/
theorem readFunction_after_reconcile {σ : Type} (ns : String) (factory : FunctionFactory σ)
    (pkg : Package σ) (request : FunctionDeployment) (annotations : GoMap) (nanosecond : Nat)
    (w : World σ) (d : Deployment) (st : Nat)
    (hC : ConfiguratorsKeepFields factory) (hS : SecretsKeepFields pkg)
    (hget : (factory.Client.DeploymentsGet w.store ns request.Service).1 = Except.ok d)
    (hne : d.Spec.Template.Spec.Containers ≠ [])
    (hret : (updateDeploymentSpec ns factory pkg request annotations nanosecond w).1
      = Outcome.ret (none, st)) :
    ∃ d' f,
      (updateDeploymentSpec ns factory pkg request annotations nanosecond w).2.calls
        = w.calls ++ [Call.deploymentsGet ns request.Service, Call.deploymentsUpdate ns d'] ∧
      readFunction d' = Outcome.ret (some f) ∧
      f.Image = request.Image ∧
      f.Labels = some (buildLabels request nanosecond) ∧
      f.Name = d.Name ∧ f.Namespace = d.Namespace ∧
      f.InvocationCount = 0 ∧
      f.Replicas = (match buildReplicas pkg request d.Spec.Replicas with
        | some r => uint64 r
        | none => 0) ∧
      (∀ r, buildReplicas pkg request d.Spec.Replicas = some r → 0 ≤ r → r < 2 ^ 31 →
        (f.Replicas : Int) = r) ∧
      (∀ r, buildReplicas pkg request d.Spec.Replicas = some r → r < 0 → -(2 ^ 31) ≤ r →
        (f.Replicas : Int) = 2 ^ 64 + r) ∧
      (buildReplicas pkg request d.Spec.Replicas = none → f.Replicas = 0) := by
  obtain ⟨d', w1, hm, hc⟩ := updateDeploymentSpec_accepted ns factory pkg request annotations
    nanosecond w d st hget hret
  obtain ⟨c, cs, hcs⟩ := List.exists_cons_of_ne_nil hne
  have hf := mutateDeployment_reconciled ns factory pkg request annotations nanosecond
    d d' _ w1 c cs hC hS hcs hm
  have hi : (reconciledFields d').Images = request.Image :: cs.map (fun c => c.Image) := by
    rw [hf]
  have hrd := readFunction_of_fields d' _ _ hi
  simp only [reconciledFields, ReconciledFields.mk.injEq] at hf
  obtain ⟨hname, hnamespace, _, hrep, hlab, _, _⟩ := hf
  refine ⟨d', _, hc, hrd, rfl, ?_, hname, hnamespace, rfl, ?_, ?_, ?_, ?_⟩
  · simp [hlab]
  · simp only [hrep]
  · intro r hr h0 h1
    simp only [hrep, hr]
    exact uint64_of_nonneg r h0 h1
  · intro r hr h0 h1
    simp only [hrep, hr]
    exact uint64_of_neg r h0 h1
  · intro hr
    simp only [hrep, hr]

/-- C9 (counterexample): a stored replica count of `-1` is kept by the reconcile and then
reported by `readFunction` as `18446744073709551615`. -/
theorem negative_replicas_wrap :
    (updateDeploymentSpec "openfaas-fn" memFactory plainPackage plainRequest ∅ 7
      negativeWorld).1 = Outcome.ret (none, StatusAccepted) ∧
    buildReplicas plainPackage plainRequest negativeStored.Spec.Replicas = some (-1) ∧
    (committedDeployments (updateDeploymentSpec "openfaas-fn" memFactory plainPackage
        plainRequest ∅ 7 negativeWorld).2.calls).map
      (fun d => match readFunction d with
        | Outcome.ret (some f) => some f.Replicas
        | _ => none) = [some 18446744073709551615] :=
  ⟨rfl, rfl, by decide⟩

/-- C9 (witness): the round trip on `echo` with a minimum replica count of 3. -/
theorem readFunction_after_reconcile_witness :
    ConfiguratorsKeepFields memFactory ∧ SecretsKeepFields scaledPackage ∧
    (memFactory.Client.DeploymentsGet echoWorld.store "openfaas-fn" scaledRequest.Service).1
      = Except.ok echoStored ∧
    echoStored.Spec.Template.Spec.Containers ≠ [] ∧
    (updateDeploymentSpec "openfaas-fn" memFactory scaledPackage scaledRequest ∅ 7
      echoWorld).1 = Outcome.ret (none, StatusAccepted) ∧
    buildReplicas scaledPackage scaledRequest echoStored.Spec.Replicas = some 3 ∧
    ∃ d' f,
      (updateDeploymentSpec "openfaas-fn" memFactory scaledPackage scaledRequest ∅ 7
          echoWorld).2.calls
        = echoWorld.calls ++ [Call.deploymentsGet "openfaas-fn" scaledRequest.Service,
            Call.deploymentsUpdate "openfaas-fn" d'] ∧
      readFunction d' = Outcome.ret (some f) ∧
      f.Image = scaledRequest.Image ∧
      f.Labels = some (buildLabels scaledRequest 7) ∧
      f.Name = echoStored.Name ∧ f.Namespace = echoStored.Namespace ∧
      f.InvocationCount = 0 ∧
      f.Replicas = (match buildReplicas scaledPackage scaledRequest
          echoStored.Spec.Replicas with
        | some r => uint64 r
        | none => 0) ∧
      (∀ r, buildReplicas scaledPackage scaledRequest echoStored.Spec.Replicas = some r →
        0 ≤ r → r < 2 ^ 31 → (f.Replicas : Int) = r) ∧
      (∀ r, buildReplicas scaledPackage scaledRequest echoStored.Spec.Replicas = some r →
        r < 0 → -(2 ^ 31) ≤ r → (f.Replicas : Int) = 2 ^ 64 + r) ∧
      (buildReplicas scaledPackage scaledRequest echoStored.Spec.Replicas = none →
        f.Replicas = 0) :=
  ⟨memFactory_keeps_fields, memPackage_keeps_fields _ _ _, rfl, by decide, rfl, rfl,
    readFunction_after_reconcile "openfaas-fn" memFactory scaledPackage scaledRequest ∅ 7
      echoWorld echoStored StatusAccepted memFactory_keeps_fields
      (memPackage_keeps_fields _ _ _) rfl (by decide) rfl⟩

/-! ### `getService` (C10) -/

/-- C10: `getService` distinguishes absence from failure. A not-found error of the store
`Get` gives `(nil, nil)`, any other error gives `(nil, err)`, and a fetched workload with at
least one container gives its `readFunction` projection with a nil error. -/
theorem getService_absent_or_failed {σ : Type} (functionNamespace functionName : String)
    (clientset : Clientset σ) (w : World σ) :
    (∀ err, (clientset.DeploymentsGet w.store functionNamespace functionName).1
        = Except.error err → err.notFound = true →
      (getService functionNamespace functionName clientset w).1 = Outcome.ret (none, none)) ∧
    (∀ err, (clientset.DeploymentsGet w.store functionNamespace functionName).1
        = Except.error err → err.notFound = false →
      (getService functionNamespace functionName clientset w).1
        = Outcome.ret (none, some err)) ∧
    (∀ item, (clientset.DeploymentsGet w.store functionNamespace functionName).1
        = Except.ok item → item.Spec.Template.Spec.Containers ≠ [] →
      ∃ f, readFunction item = Outcome.ret (some f) ∧
        (getService functionNamespace functionName clientset w).1
          = Outcome.ret (some f, none)) := by
  refine ⟨?_, ?_, ?_⟩
  · intro err hget hnf
    unfold getService
    simp only [World.DeploymentsGet, hget, hnf]
    rfl
  · intro err hget hnf
    unfold getService
    simp only [World.DeploymentsGet, hget, hnf]
    rfl
  · intro item hget hne
    obtain ⟨c, cs, hc⟩ := List.exists_cons_of_ne_nil hne
    have hi : (reconciledFields item).Images = c.Image :: cs.map (fun c => c.Image) := by
      simp [reconciledFields, hc]
    have hrd := readFunction_of_fields item _ _ hi
    refine ⟨_, hrd, ?_⟩
    unfold getService
    simp only [World.DeploymentsGet, hget, hrd]

/-- C10 (witness): a missing function, an unreachable store and the stored function `echo`. -/
theorem getService_absent_or_failed_witness :
    ((memClient.DeploymentsGet orphanWorld.store "openfaas-fn" "echo").1
        = Except.error (notFoundError "deployments.apps" "echo") ∧
      (notFoundError "deployments.apps" "echo").notFound = true ∧
      (getService "openfaas-fn" "echo" memClient orphanWorld).1 = Outcome.ret (none, none)) ∧
    ((brokenGetClient.DeploymentsGet echoWorld.store "openfaas-fn" "echo").1
        = Except.error storeTimeout ∧
      storeTimeout.notFound = false ∧
      (getService "openfaas-fn" "echo" brokenGetClient echoWorld).1
        = Outcome.ret (none, some storeTimeout)) ∧
    ((memClient.DeploymentsGet echoWorld.store "openfaas-fn" "echo").1 = Except.ok echoStored ∧
      echoStored.Spec.Template.Spec.Containers ≠ [] ∧
      ∃ f, readFunction echoStored = Outcome.ret (some f) ∧
        (getService "openfaas-fn" "echo" memClient echoWorld).1
          = Outcome.ret (some f, none)) :=
  ⟨⟨rfl, rfl,
      (getService_absent_or_failed "openfaas-fn" "echo" memClient orphanWorld).1
        (notFoundError "deployments.apps" "echo") rfl rfl⟩,
    ⟨rfl, rfl,
      (getService_absent_or_failed "openfaas-fn" "echo" brokenGetClient echoWorld).2.1
        storeTimeout rfl rfl⟩,
    ⟨rfl, by decide,
      (getService_absent_or_failed "openfaas-fn" "echo" memClient echoWorld).2.2
        echoStored rfl (by decide)⟩⟩

/-! ### The handlers at failing inputs (C2, C3, C4, C6) -/

/-- C2 (code evaluated at the failing input): the workload `echo` is absent and its endpoint
exists. The handler writes 404 with the error text, then still fetches the endpoint and
invokes the service `Update`, and finally calls `WriteHeader(202)`. -/
theorem update_missing_workload_mutates_endpoint :
    (updateDeploymentSpec "openfaas-fn" memFactory plainPackage plainRequest
      (plainPackage.buildAnnotations plainRequest) 7 orphanWorld).1
      = Outcome.ret (some (notFoundError "deployments.apps" "echo"), StatusNotFound) ∧
    plainPackage.isNotFound (notFoundError "deployments.apps" "echo") = true ∧
    (MakeUpdateHandler "openfaas-fn" memFactory plainPackage 7 ⟨"", "body"⟩
      orphanWorld).2.calls
      = [Call.deploymentsGet "openfaas-fn" "echo", Call.servicesGet "openfaas-fn" "echo",
          Call.servicesUpdate "openfaas-fn"
            { echoService with Annotations := plainPackage.buildAnnotations plainRequest }] ∧
    (MakeUpdateHandler "openfaas-fn" memFactory plainPackage 7 ⟨"", "body"⟩
      orphanWorld).2.response
      = [WriterOp.writeHeader 404, WriterOp.write "deployments.apps \"echo\" not found",
          WriterOp.writeHeader 202] ∧
    (MakeUpdateHandler "openfaas-fn" memFactory plainPackage 7 ⟨"", "body"⟩
      orphanWorld).2.store.services
      = [{ echoService with Annotations := plainPackage.buildAnnotations plainRequest }] :=
  ⟨rfl, rfl, rfl, rfl, rfl⟩

/-- C3 (code evaluated at the failing inputs): when `updateDeploymentSpec` fails with a
validation error (400) or with a store update error (500) that `isNotFound` does not
classify as not-found, the handler returns without writing anything to the response. -/
theorem update_error_not_written :
    (updateDeploymentSpec "openfaas-fn" memFactory badQuantityPackage plainRequest
      (badQuantityPackage.buildAnnotations plainRequest) 7 echoWorld).1
      = Outcome.ret (some badQuantity, StatusBadRequest) ∧
    badQuantityPackage.isNotFound badQuantity = false ∧
    (MakeUpdateHandler "openfaas-fn" memFactory badQuantityPackage 7 ⟨"", "body"⟩
      echoWorld).2.response = [] ∧
    (updateDeploymentSpec "openfaas-fn" brokenUpdateFactory plainPackage plainRequest
      (plainPackage.buildAnnotations plainRequest) 7 echoWorld).1
      = Outcome.ret (some storeTimeout, StatusInternalServerError) ∧
    plainPackage.isNotFound storeTimeout = false ∧
    (MakeUpdateHandler "openfaas-fn" brokenUpdateFactory plainPackage 7 ⟨"", "body"⟩
      echoWorld).2.response = [] :=
  ⟨rfl, rfl, rfl, rfl, rfl, rfl⟩

/-- C4 (code evaluated at the failing input): for the namespace `kube-system` the reader
handler writes the rejection and then still calls the store's deployment `List` and writes
the listing. -/
theorem reader_lists_reserved_namespace :
    (MakeFunctionReader "openfaas-fn" memClient namesMarshal ⟨"kube-system", ""⟩
      kubeSystemWorld).2.calls = [Call.deploymentsList "kube-system" "faas_function"] ∧
    (MakeFunctionReader "openfaas-fn" memClient namesMarshal ⟨"kube-system", ""⟩
      kubeSystemWorld).2.response
      = [WriterOp.setHeader "Content-Type" "text/plain; charset=utf-8",
          WriterOp.setHeader "X-Content-Type-Options" "nosniff",
          WriterOp.writeHeader 401,
          WriterOp.write "unable to list within the kube-system namespace\n",
          WriterOp.setHeader "Content-Type" "application/json",
          WriterOp.writeHeader 200,
          WriterOp.write "dns"] ∧
    (MakeFunctionReader "kube-system" memClient namesMarshal ⟨"", ""⟩
      kubeSystemWorld).2.calls = [Call.deploymentsList "kube-system" "faas_function"] := by
  decide

/-- C6 (code evaluated at the failing input): one listed workload with an empty container
list makes `readFunction`, `getServiceList` and the reader handler panic. -/
theorem getServiceList_panics_on_empty_containers :
    readFunction (echoDeployment "broken" [] (some 1))
      = Outcome.panic "runtime error: index out of range [0] with length 0" ∧
    (getServiceList "openfaas-fn" memClient brokenListWorld).1
      = Outcome.panic "runtime error: index out of range [0] with length 0" ∧
    (MakeFunctionReader "openfaas-fn" memClient namesMarshal ⟨"", ""⟩ brokenListWorld).1
      = Outcome.panic "runtime error: index out of range [0] with length 0" :=
  ⟨rfl, rfl, rfl⟩

end FaasNetes
